import Mathlib

/-!
Verification development for the cad-datamodel repository.

The embedding translates the transform algebra (src/cad_datamodel/core/types.py),
the shape classes (shapes/rectangle.py, shapes/circle.py, shapes/shape.py), the
error taxonomy (core/exceptions.py) and the SVG exporter (persistence/svg.py)
into executable Lean definitions.  Machine floating-point arithmetic is modelled
by exact rational arithmetic; the trigonometric constants that the circle
bounding-box code evaluates at the four cardinal angles 0, pi/2, pi, 3pi/2 are
taken at their exact values 1, 0, -1.  Python exceptions are modelled by an
error type returned through Except.
-/

namespace CadModel

/-- Error taxonomy.  valueError models the Python builtin ValueError; the other
constructors mirror the classes of core/exceptions.py that the embedded code can
raise (ShapeValidationError with its shape_type, message and optional shape_id,
and TransformError with its transform_type and message). -/
inductive PyError where
  | valueError (msg : String)
  | shapeValidation (shapeType : String) (msg : String) (shapeId : Option String)
  | transformError (transformType : String) (msg : String)
deriving DecidableEq, Repr

/-- True exactly on the TransformError constructor of the taxonomy. -/
def PyError.isTransformErrorKind : PyError → Bool
  | .transformError _ _ => true
  | _ => false

/-- 2D point, Point of core/types.py, with exact rational coordinates. -/
structure Point where
  x : ℚ
  y : ℚ
deriving DecidableEq, Repr

/-- Axis-aligned bounding box, Bounds of core/types.py. -/
structure Bounds where
  min_point : Point
  max_point : Point
deriving DecidableEq, Repr

/-- A 3x3 rational matrix, the `_matrix` of the Transform class. -/
structure Mat3 where
  m00 : ℚ
  m01 : ℚ
  m02 : ℚ
  m10 : ℚ
  m11 : ℚ
  m12 : ℚ
  m20 : ℚ
  m21 : ℚ
  m22 : ℚ
deriving DecidableEq, Repr

/-- Matrix product, the numpy `@` operator on 3x3 matrices. -/
def Mat3.mul (A B : Mat3) : Mat3 where
  m00 := A.m00 * B.m00 + A.m01 * B.m10 + A.m02 * B.m20
  m01 := A.m00 * B.m01 + A.m01 * B.m11 + A.m02 * B.m21
  m02 := A.m00 * B.m02 + A.m01 * B.m12 + A.m02 * B.m22
  m10 := A.m10 * B.m00 + A.m11 * B.m10 + A.m12 * B.m20
  m11 := A.m10 * B.m01 + A.m11 * B.m11 + A.m12 * B.m21
  m12 := A.m10 * B.m02 + A.m11 * B.m12 + A.m12 * B.m22
  m20 := A.m20 * B.m00 + A.m21 * B.m10 + A.m22 * B.m20
  m21 := A.m20 * B.m01 + A.m21 * B.m11 + A.m22 * B.m21
  m22 := A.m20 * B.m02 + A.m21 * B.m12 + A.m22 * B.m22

/-- Determinant of a 3x3 matrix (expansion along the first row); the exact
counterpart of the singularity test of numpy.linalg.inv. -/
def Mat3.det (M : Mat3) : ℚ :=
  M.m00 * (M.m11 * M.m22 - M.m12 * M.m21)
    - M.m01 * (M.m10 * M.m22 - M.m12 * M.m20)
    + M.m02 * (M.m10 * M.m21 - M.m11 * M.m20)

/-- Adjugate divided by determinant: the mathematical matrix inverse that
numpy.linalg.inv computes on a nonsingular matrix. -/
def Mat3.inv (M : Mat3) : Mat3 :=
  let d := M.det
  { m00 := (M.m11 * M.m22 - M.m12 * M.m21) / d
    m01 := -(M.m01 * M.m22 - M.m02 * M.m21) / d
    m02 := (M.m01 * M.m12 - M.m02 * M.m11) / d
    m10 := -(M.m10 * M.m22 - M.m12 * M.m20) / d
    m11 := (M.m00 * M.m22 - M.m02 * M.m20) / d
    m12 := -(M.m00 * M.m12 - M.m02 * M.m10) / d
    m20 := (M.m10 * M.m21 - M.m11 * M.m20) / d
    m21 := -(M.m00 * M.m21 - M.m01 * M.m20) / d
    m22 := (M.m00 * M.m11 - M.m01 * M.m10) / d }

/-- The identity matrix np.eye(3). -/
def Mat3.id3 : Mat3 :=
  ⟨1, 0, 0, 0, 1, 0, 0, 0, 1⟩

/-- Row-major list-of-rows form of a matrix, `matrix.tolist()`. -/
def Mat3.toRows (M : Mat3) : List (List ℚ) :=
  [[M.m00, M.m01, M.m02], [M.m10, M.m11, M.m12], [M.m20, M.m21, M.m22]]

/-- The Transform class of core/types.py: a wrapper around its 3x3 matrix. -/
structure Transform where
  mat : Mat3
deriving DecidableEq, Repr

/-- Transform.identity(). -/
def Transform.identity : Transform :=
  ⟨Mat3.id3⟩

/-- Transform.translation(dx, dy). -/
def Transform.translation (dx dy : ℚ) : Transform :=
  ⟨⟨1, 0, dx, 0, 1, dy, 0, 0, 1⟩⟩

/-- Transform.scale(sx, sy, center): sy defaults to sx when absent; a center,
when given, contributes the closed-form translation terms cx*(1-sx), cy*(1-sy)
of the source. -/
def Transform.scale (sx : ℚ) (syOpt : Option ℚ) (center : Option Point) : Transform :=
  let sy := syOpt.getD sx
  match center with
  | none => ⟨⟨sx, 0, 0, 0, sy, 0, 0, 0, 1⟩⟩
  | some c => ⟨⟨sx, 0, c.x * (1 - sx), 0, sy, c.y * (1 - sy), 0, 0, 1⟩⟩

/-- Transform.__init__ on an explicit array argument, given as a list of rows:
accepts exactly a 3x3 array and otherwise raises
ValueError("Transform matrix must be 3x3"). -/
def Transform.ofRows (rows : List (List ℚ)) : Except PyError Transform :=
  match rows with
  | [[a, b, c], [d, e, f], [g, h, i]] => .ok ⟨⟨a, b, c, d, e, f, g, h, i⟩⟩
  | _ => .error (.valueError "Transform matrix must be 3x3")

/-- Boolean 3x3 shape test on a list of rows, the numpy `shape != (3, 3)`
condition. -/
def is3x3 (rows : List (List ℚ)) : Bool :=
  rows.length = 3 && rows.all (fun r => r.length = 3)

/-- Transform.compose(other): the matrix product self @ other. -/
def Transform.compose (T other : Transform) : Transform :=
  ⟨T.mat.mul other.mat⟩

/-- Transform.apply_to_point: multiplies the matrix with the homogeneous vector
(x, y, 1) and returns the first two components, dropping the third. -/
def Transform.applyToPoint (T : Transform) (p : Point) : Point :=
  ⟨T.mat.m00 * p.x + T.mat.m01 * p.y + T.mat.m02,
   T.mat.m10 * p.x + T.mat.m11 * p.y + T.mat.m12⟩

/-- Transform.inverse: raises ValueError("Transform is not invertible") on a
singular matrix (the exact-arithmetic counterpart of the numpy LinAlgError),
and otherwise returns the matrix inverse. -/
def Transform.inverse (T : Transform) : Except PyError Transform :=
  if T.mat.det = 0 then .error (.valueError "Transform is not invertible")
  else .ok ⟨T.mat.inv⟩

/-- Style of shapes/shape.py: the five pydantic fields with their defaults. -/
structure Style where
  fill_color : Option String := none
  stroke_color : Option String := none
  stroke_width : ℚ := 1
  fill_opacity : ℚ := 1
  stroke_opacity : ℚ := 1
deriving DecidableEq, Repr

/-- User metadata dictionary, carried opaquely as a finite string map. -/
abbrev Metadata : Type := List (String × String)

/-- The Python expression shape_id or str(uuid.uuid4()) of Shape.__init__:
a missing or empty (falsy) shape_id is replaced by the freshly generated
uuid string. -/
def pyOrId (shape_id : Option String) (fresh : String) : String :=
  match shape_id with
  | none => fresh
  | some s => if s = "" then fresh else s

/-- Rectangle of shapes/rectangle.py: geometry fields plus the common Shape
fields assigned by Shape.__init__. -/
structure Rectangle where
  x : ℚ
  y : ℚ
  width : ℚ
  height : ℚ
  corner_radius : ℚ
  id : String
  layer_id : String
  group_id : Option String
  visible : Bool
  locked : Bool
  style : Style
  transform : Transform
  metadata : Metadata
deriving DecidableEq, Repr

/-- Circle of shapes/circle.py. -/
structure Circle where
  cx : ℚ
  cy : ℚ
  radius : ℚ
  id : String
  layer_id : String
  group_id : Option String
  visible : Bool
  locked : Bool
  style : Style
  transform : Transform
  metadata : Metadata
deriving DecidableEq, Repr

/-- Rectangle.__init__: the four geometry validations in source order, then
Shape.__init__ (id assignment via pyOrId, defaulting of style, transform and
metadata, and the layer_id emptiness check, which reports self._id).  The
fresh argument stands for the uuid that Python would generate when shape_id
is falsy. -/
def mkRectangle (x y width height corner_radius : ℚ) (layer_id : String)
    (group_id : Option String) (visible locked : Bool) (style : Option Style)
    (transform : Option Transform) (metadata : Option Metadata)
    (shape_id : Option String) (fresh : String) : Except PyError Rectangle :=
  if width ≤ 0 then
    .error (.shapeValidation "RECTANGLE"
      ("Width must be positive, got " ++ toString width) shape_id)
  else if height ≤ 0 then
    .error (.shapeValidation "RECTANGLE"
      ("Height must be positive, got " ++ toString height) shape_id)
  else if corner_radius < 0 then
    .error (.shapeValidation "RECTANGLE"
      ("Corner radius cannot be negative, got " ++ toString corner_radius) shape_id)
  else if min width height / 2 < corner_radius then
    .error (.shapeValidation "RECTANGLE"
      ("Corner radius " ++ toString corner_radius ++ " exceeds maximum allowed "
        ++ toString (min width height / 2)) shape_id)
  else
    let theId := pyOrId shape_id fresh
    if layer_id = "" then
      .error (.shapeValidation "RECTANGLE" "layer_id cannot be empty" (some theId))
    else
      .ok ⟨x, y, width, height, corner_radius, theId, layer_id, group_id,
           visible, locked, style.getD {}, transform.getD Transform.identity,
           metadata.getD default⟩

/-- Circle.__init__: the radius validation, then Shape.__init__ as in
mkRectangle. -/
def mkCircle (cx cy radius : ℚ) (layer_id : String)
    (group_id : Option String) (visible locked : Bool) (style : Option Style)
    (transform : Option Transform) (metadata : Option Metadata)
    (shape_id : Option String) (fresh : String) : Except PyError Circle :=
  if radius ≤ 0 then
    .error (.shapeValidation "CIRCLE"
      ("Radius must be positive, got " ++ toString radius) shape_id)
  else
    let theId := pyOrId shape_id fresh
    if layer_id = "" then
      .error (.shapeValidation "CIRCLE" "layer_id cannot be empty" (some theId))
    else
      .ok ⟨cx, cy, radius, theId, layer_id, group_id, visible, locked,
           style.getD {}, transform.getD Transform.identity, metadata.getD default⟩

/-- Python min over a nonempty list; the empty case is unreachable in the
embedded code. -/
def pyMin : List ℚ → ℚ
  | [] => 0
  | a :: rest => rest.foldl min a

/-- Python max over a nonempty list; the empty case is unreachable in the
embedded code. -/
def pyMax : List ℚ → ℚ
  | [] => 0
  | a :: rest => rest.foldl max a

/-- Rectangle.get_bounds: the four corners mapped through the transform, then
componentwise min and max. -/
def Rectangle.get_bounds (r : Rectangle) : Bounds :=
  let corners : List Point :=
    [⟨r.x, r.y⟩, ⟨r.x + r.width, r.y⟩,
     ⟨r.x + r.width, r.y + r.height⟩, ⟨r.x, r.y + r.height⟩]
  let tc := corners.map r.transform.applyToPoint
  let xs := tc.map Point.x
  let ys := tc.map Point.y
  ⟨⟨pyMin xs, pyMin ys⟩, ⟨pyMax xs, pyMax ys⟩⟩

/-- Circle.get_bounds: the points at the four cardinal angles (with the cosine
and sine values taken exactly: cos 0 = 1, sin 0 = 0, and so on) and the center,
all mapped through the transform, then componentwise min and max. -/
def Circle.get_bounds (c : Circle) : Bounds :=
  let pts : List Point :=
    [⟨c.cx + c.radius * 1, c.cy + c.radius * 0⟩,
     ⟨c.cx + c.radius * 0, c.cy + c.radius * 1⟩,
     ⟨c.cx + c.radius * (-1), c.cy + c.radius * 0⟩,
     ⟨c.cx + c.radius * 0, c.cy + c.radius * (-1)⟩]
  let tc := pts.map c.transform.applyToPoint
  let all := tc ++ [c.transform.applyToPoint ⟨c.cx, c.cy⟩]
  let xs := all.map Point.x
  let ys := all.map Point.y
  ⟨⟨pyMin xs, pyMin ys⟩, ⟨pyMax xs, pyMax ys⟩⟩

/-- Rectangle.apply_transform: calls the Rectangle constructor on the same
field values with the composed transform and the preserved id; the original
value is untouched (the embedding is pure, as the source is copy-on-write). -/
def Rectangle.apply_transform (r : Rectangle) (t : Transform) (fresh : String) :
    Except PyError Rectangle :=
  mkRectangle r.x r.y r.width r.height r.corner_radius r.layer_id r.group_id
    r.visible r.locked (some r.style) (some (r.transform.compose t))
    (some r.metadata) (some r.id) fresh

/-- Circle.apply_transform, as for Rectangle. -/
def Circle.apply_transform (c : Circle) (t : Transform) (fresh : String) :
    Except PyError Circle :=
  mkCircle c.cx c.cy c.radius c.layer_id c.group_id c.visible c.locked
    (some c.style) (some (c.transform.compose t)) (some c.metadata)
    (some c.id) fresh

/-- The serialized dictionary of a rectangle.  A field read with data.get, or
behind a Python truthiness test, is optional here; none stands for an absent
key (and for group_id also for an explicit null, and for style for an empty
style dictionary, which the source treats identically). -/
structure RectDict where
  x : Option ℚ
  y : Option ℚ
  width : Option ℚ
  height : Option ℚ
  corner_radius : Option ℚ
  id : Option String
  layer_id : Option String
  group_id : Option String
  visible : Option Bool
  locked : Option Bool
  style : Option Style
  transform : Option (List (List ℚ))
  metadata : Option Metadata
deriving DecidableEq, Repr

/-- The serialized dictionary of a circle, as for RectDict. -/
structure CircleDict where
  cx : Option ℚ
  cy : Option ℚ
  radius : Option ℚ
  id : Option String
  layer_id : Option String
  group_id : Option String
  visible : Option Bool
  locked : Option Bool
  style : Option Style
  transform : Option (List (List ℚ))
  metadata : Option Metadata
deriving DecidableEq, Repr

/-- Rectangle.to_dict: the common Shape.to_dict keys (id, layer_id, group_id,
visible, locked, style, transform as matrix.tolist(), metadata) updated with
the rectangle geometry keys. -/
def Rectangle.to_dict (r : Rectangle) : RectDict :=
  ⟨some r.x, some r.y, some r.width, some r.height, some r.corner_radius,
   some r.id, some r.layer_id, r.group_id, some r.visible, some r.locked,
   some r.style, some r.transform.mat.toRows, some r.metadata⟩

/-- Circle.to_dict, as for Rectangle. -/
def Circle.to_dict (c : Circle) : CircleDict :=
  ⟨some c.cx, some c.cy, some c.radius, some c.id, some c.layer_id, c.group_id,
   some c.visible, some c.locked, some c.style, some c.transform.mat.toRows,
   some c.metadata⟩

/-- Rectangle.from_dict: the required numeric keys raise a ShapeValidationError
when missing (the source message carries the wrapped exception text, elided
here), the remaining keys default as in the source, the transform list is
passed through the Transform constructor, and the Rectangle constructor
revalidates. -/
def Rectangle.from_dict (d : RectDict) (fresh : String) : Except PyError Rectangle :=
  match d.x, d.y, d.width, d.height with
  | some x, some y, some width, some height =>
    let corner_radius := d.corner_radius.getD 0
    let layer_id := d.layer_id.getD ""
    match d.transform with
    | some rows => do
      let t ← Transform.ofRows rows
      mkRectangle x y width height corner_radius layer_id d.group_id
        (d.visible.getD true) (d.locked.getD false) d.style (some t)
        (some (d.metadata.getD default)) d.id fresh
    | none =>
      mkRectangle x y width height corner_radius layer_id d.group_id
        (d.visible.getD true) (d.locked.getD false) d.style none
        (some (d.metadata.getD default)) d.id fresh
  | _, _, _, _ =>
    .error (.shapeValidation "RECTANGLE" "Invalid rectangle data" d.id)

/-- Circle.from_dict, as for Rectangle. -/
def Circle.from_dict (d : CircleDict) (fresh : String) : Except PyError Circle :=
  match d.cx, d.cy, d.radius with
  | some cx, some cy, some radius =>
    let layer_id := d.layer_id.getD ""
    match d.transform with
    | some rows => do
      let t ← Transform.ofRows rows
      mkCircle cx cy radius layer_id d.group_id (d.visible.getD true)
        (d.locked.getD false) d.style (some t)
        (some (d.metadata.getD default)) d.id fresh
    | none =>
      mkCircle cx cy radius layer_id d.group_id (d.visible.getD true)
        (d.locked.getD false) d.style none
        (some (d.metadata.getD default)) d.id fresh
  | _, _, _ =>
    .error (.shapeValidation "CIRCLE" "Invalid circle data" d.id)

/-- A shape held by a Document, over the concrete shape classes the
repository implements. -/
inductive DocShape where
  | rect (r : Rectangle)
  | circ (c : Circle)
deriving DecidableEq, Repr

/-- Visibility of a document shape. -/
def DocShape.visible : DocShape → Bool
  | .rect r => r.visible
  | .circ c => c.visible

/-- An emitted SVG rect element, holding the geometry attributes, the optional
rx and ry attributes, the style parts joined into the style attribute, and the
optional transform attribute matrix(a,b,c,d,e,f). -/
structure SvgRectElem where
  x : ℚ
  y : ℚ
  width : ℚ
  height : ℚ
  rx : Option ℚ
  ry : Option ℚ
  styleParts : List String
  transformAttr : Option (ℚ × ℚ × ℚ × ℚ × ℚ × ℚ)
deriving DecidableEq, Repr

/-- SVG elements the exporter can emit; the source exporter only ever builds
rect elements. -/
inductive SvgElem where
  | rect (e : SvgRectElem)
deriving DecidableEq, Repr

/-- SVGExporter._rectangle_to_svg: geometry attributes, rx and ry exactly when
corner_radius is positive, the style parts built from the style fields in
source order (rational values printed by toString in place of Python float
formatting), and the transform attribute exactly when the transform differs
from the identity. -/
def rectangleToSvg (r : Rectangle) : SvgRectElem :=
  let fillParts :=
    match r.style.fill_color with
    | some c =>
      ["fill:" ++ c] ++
        (if r.style.fill_opacity < 1 then
          ["fill-opacity:" ++ toString r.style.fill_opacity] else [])
    | none => ["fill:none"]
  let strokeParts :=
    match r.style.stroke_color with
    | some c =>
      ["stroke:" ++ c, "stroke-width:" ++ toString r.style.stroke_width] ++
        (if r.style.stroke_opacity < 1 then
          ["stroke-opacity:" ++ toString r.style.stroke_opacity] else [])
    | none => []
  { x := r.x, y := r.y, width := r.width, height := r.height
    rx := if 0 < r.corner_radius then some r.corner_radius else none
    ry := if 0 < r.corner_radius then some r.corner_radius else none
    styleParts := fillParts ++ strokeParts
    transformAttr :=
      if r.transform = Transform.identity then none
      else some (r.transform.mat.m00, r.transform.mat.m10, r.transform.mat.m01,
                 r.transform.mat.m11, r.transform.mat.m02, r.transform.mat.m12) }

/-- SVGExporter._shape_to_svg: a rect element for a Rectangle and None for
every other shape class. -/
def shapeToSvg : DocShape → Option SvgElem
  | .rect r => some (.rect (rectangleToSvg r))
  | .circ _ => none

/-- SVGExporter.export_document over the document shape list: each visible
shape contributes its element when _shape_to_svg returns one; invisible
shapes and unsupported shapes contribute nothing. -/
def exportShapes (shapes : List DocShape) : List SvgElem :=
  shapes.filterMap (fun s => if s.visible then shapeToSvg s else none)

/-- The rectangle Rectangle(x=10, y=20, width=100, height=50) on layer1 under
the identity transform. -/
def sampleRect : Rectangle :=
  ⟨10, 20, 100, 50, 0, "rect-1", "layer1", none, true, false, {},
   Transform.identity, []⟩

/-- sampleRect after composing with scale(2) of translation(10, 20): the
composed matrix maps (px, py) to (2 px + 20, 2 py + 40). -/
def sampleRectScaled : Rectangle :=
  { sampleRect with transform := ⟨⟨2, 0, 20, 0, 2, 40, 0, 0, 1⟩⟩ }

/-- sampleRect after composing with scale(2) of translation(50, 50). -/
def sampleRectScaled50 : Rectangle :=
  { sampleRect with transform := ⟨⟨2, 0, 100, 0, 2, 100, 0, 0, 1⟩⟩ }

/-- The circle of the circle SVG export test: Circle(cx=50, cy=50, radius=25)
on layer1, visible, under the identity transform. -/
def sampleCircle : Circle :=
  ⟨50, 50, 25, "circ-1", "layer1", none, true, false, {},
   Transform.identity, []⟩

/-- A rectangle with every optional field nontrivial, for round-trip and
transform witnesses. -/
def sampleRect2 : Rectangle :=
  ⟨1, 2, 3, 4, 1, "rect-b", "layerA", some "g1", true, false,
   ⟨some "#FF0000", some "#000000", 2, 1/2, 9/10⟩,
   Transform.translation 5 6, [("k", "v")]⟩

/-- A circle with every optional field nontrivial, for round-trip and
transform witnesses. -/
def sampleCircle2 : Circle :=
  ⟨3, 4, 2, "circ-b", "layerA", some "g2", false, true,
   ⟨none, some "#00FF00", 1, 1, 1⟩,
   Transform.translation 1 2, [("m", "1")]⟩

/-!  Theorems.  -/

/-- Applying the identity transform leaves a point unchanged. -/
theorem Transform.identity_apply (p : Point) : Transform.identity.applyToPoint p = p := by
  simp [Transform.applyToPoint, Transform.identity, Mat3.id3]

/-- The Rectangle constructor succeeds and returns exactly its arguments when
all of the validation conditions hold and a nonempty shape id is supplied. -/
theorem mkRectangle_ok (x y w h cr : ℚ) (layer i : String) (gid : Option String)
    (vis lock : Bool) (st : Style) (t : Transform) (md : Metadata) (fresh : String)
    (hw : 0 < w) (hh : 0 < h) (hcr : 0 ≤ cr) (hmax : cr ≤ min w h / 2)
    (hl : layer ≠ "") (hi : i ≠ "") :
    mkRectangle x y w h cr layer gid vis lock (some st) (some t) (some md) (some i) fresh
      = .ok ⟨x, y, w, h, cr, i, layer, gid, vis, lock, st, t, md⟩ := by
  simp only [mkRectangle, pyOrId]
  rw [if_neg (not_le.mpr hw), if_neg (not_le.mpr hh), if_neg (not_lt.mpr hcr),
      if_neg (not_lt.mpr hmax), if_neg hi, if_neg hl]
  rfl

/-- The Circle constructor succeeds and returns exactly its arguments when the
validation conditions hold and a nonempty shape id is supplied. -/
theorem mkCircle_ok (cx cy r : ℚ) (layer i : String) (gid : Option String)
    (vis lock : Bool) (st : Style) (t : Transform) (md : Metadata) (fresh : String)
    (hr : 0 < r) (hl : layer ≠ "") (hi : i ≠ "") :
    mkCircle cx cy r layer gid vis lock (some st) (some t) (some md) (some i) fresh
      = .ok ⟨cx, cy, r, i, layer, gid, vis, lock, st, t, md⟩ := by
  simp only [mkCircle, pyOrId]
  rw [if_neg (not_le.mpr hr), if_neg hi, if_neg hl]
  rfl

/-- C1 (amended): for all transforms A, B the matrix of A.compose(B) is the
matrix product of A.matrix and B.matrix; and whenever the bottom row of the
matrix of B is (0, 0, 1) — an affine transform — applying the composition to a
point p agrees with applying B first and then A.  (Without the affine
condition on B the point identity fails, because apply_to_point drops the
third homogeneous coordinate: see the counterexample.) -/
theorem C1_compose_matrix_product_and_affine_apply : ∀ (A B : Transform) (p : Point),
    (A.compose B).mat = A.mat.mul B.mat ∧
    (B.mat.m20 = 0 → B.mat.m21 = 0 → B.mat.m22 = 1 →
      (A.compose B).applyToPoint p = A.applyToPoint (B.applyToPoint p)) := by
  intro A B p
  refine ⟨rfl, fun h20 h21 h22 => ?_⟩
  obtain ⟨⟨a00, a01, a02, a10, a11, a12, a20, a21, a22⟩⟩ := A
  obtain ⟨⟨b00, b01, b02, b10, b11, b12, b20, b21, b22⟩⟩ := B
  simp only at h20 h21 h22
  subst h20 h21 h22
  simp only [Transform.compose, Transform.applyToPoint, Mat3.mul, Point.mk.injEq]
  constructor <;> ring

/-- C1 counterexample: for the non-affine B with matrix
[[1,0,0],[0,1,0],[0,0,2]] and A with matrix [[0,0,1],[0,1,0],[0,0,1]], the
composed transform applied to (5, 7) gives (2, 7), while applying B and then A
gives (1, 7): the claimed point identity fails for general transforms. -/
theorem C1_compose_apply_counterexample :
    (Transform.compose ⟨⟨0, 0, 1, 0, 1, 0, 0, 0, 1⟩⟩ ⟨⟨1, 0, 0, 0, 1, 0, 0, 0, 2⟩⟩).applyToPoint ⟨5, 7⟩
      ≠ Transform.applyToPoint ⟨⟨0, 0, 1, 0, 1, 0, 0, 0, 1⟩⟩
          (Transform.applyToPoint ⟨⟨1, 0, 0, 0, 1, 0, 0, 0, 2⟩⟩ ⟨5, 7⟩) := by
  simp only [Transform.compose, Transform.applyToPoint, Mat3.mul, Point.mk.injEq, ne_eq]
  norm_num

/-- C1 witness: the amended composition law at A = translation(1, 2),
B = scale(2) and p = (3, 4). -/
theorem C1_compose_witness :
    ((Transform.translation 1 2).compose (Transform.scale 2 none none)).mat
        = (Transform.translation 1 2).mat.mul (Transform.scale 2 none none).mat ∧
    ((Transform.translation 1 2).compose (Transform.scale 2 none none)).applyToPoint ⟨3, 4⟩
        = (Transform.translation 1 2).applyToPoint
            ((Transform.scale 2 none none).applyToPoint ⟨3, 4⟩) := by
  have h := C1_compose_matrix_product_and_affine_apply
    (Transform.translation 1 2) (Transform.scale 2 none none) ⟨3, 4⟩
  exact ⟨h.1, h.2 rfl rfl rfl⟩

/-- C2 (amended): applying scale(2).compose(translation(10, 20)) to
Rectangle(10, 20, 100, 50) under the identity transform and taking the bounds
yields min = (40, 80) and max = (240, 180): the translation is applied first
and then the scale, so the corner (10, 20) maps to (2(10+10), 2(20+20)).
The figures min = (120, 140), max = (320, 240) of the original claim belong to
translation(50, 50), the input used by the repository test. -/
theorem C2_scale_translate_scenario :
    sampleRect.apply_transform
        ((Transform.scale 2 none none).compose (Transform.translation 10 20)) "fresh"
      = .ok sampleRectScaled ∧
    sampleRectScaled.get_bounds = ⟨⟨40, 80⟩, ⟨240, 180⟩⟩ := by
  constructor
  · simp [sampleRect, sampleRectScaled, Rectangle.apply_transform, mkRectangle, pyOrId,
      Transform.compose, Mat3.mul, Transform.scale, Transform.translation,
      Transform.identity, Mat3.id3]
    norm_num
  · simp [sampleRectScaled, sampleRect, Rectangle.get_bounds, Transform.applyToPoint,
      pyMin, pyMax]
    norm_num

/-- C2 counterexample: for the rectangle and transform exactly as the claim
states them, the computed bounds are (40, 80) to (240, 180), not the claimed
(120, 140) to (320, 240). -/
theorem C2_scale_translate_counterexample :
    sampleRect.apply_transform
        ((Transform.scale 2 none none).compose (Transform.translation 10 20)) "fresh"
      = .ok sampleRectScaled ∧
    sampleRectScaled.get_bounds ≠ ⟨⟨120, 140⟩, ⟨320, 240⟩⟩ := by
  constructor
  · simp [sampleRect, sampleRectScaled, Rectangle.apply_transform, mkRectangle, pyOrId,
      Transform.compose, Mat3.mul, Transform.scale, Transform.translation,
      Transform.identity, Mat3.id3]
    norm_num
  · simp only [sampleRectScaled, sampleRect, Rectangle.get_bounds, Transform.applyToPoint,
      pyMin, pyMax, List.map, List.foldl, Bounds.mk.injEq, Point.mk.injEq, ne_eq]
    norm_num

/-- C3: under the identity transform the bounds of a rectangle with positive
width and height are exactly ((x, y), (x+w, y+h)), and the bounds of a circle
with positive radius are exactly ((cx-r, cy-r), (cx+r, cy+r)). -/
theorem C3_bounds_under_identity :
    (∀ r : Rectangle, r.transform = Transform.identity → 0 < r.width → 0 < r.height →
      r.get_bounds = ⟨⟨r.x, r.y⟩, ⟨r.x + r.width, r.y + r.height⟩⟩) ∧
    (∀ c : Circle, c.transform = Transform.identity → 0 < c.radius →
      c.get_bounds = ⟨⟨c.cx - c.radius, c.cy - c.radius⟩,
                      ⟨c.cx + c.radius, c.cy + c.radius⟩⟩) := by
  constructor
  · intro r ht hw hh
    obtain ⟨x, y, w, h, cr, i, layer, gid, vis, lock, st, t, md⟩ := r
    simp only at ht hw hh
    subst ht
    simp only [Rectangle.get_bounds, List.map, Transform.identity_apply, pyMin, pyMax,
      List.foldl, Bounds.mk.injEq, Point.mk.injEq]
    refine ⟨⟨?_, ?_⟩, ?_, ?_⟩ <;> (simp only [min_def, max_def]; split_ifs <;> linarith)
  · intro c ht hr
    obtain ⟨cx, cy, rad, i, layer, gid, vis, lock, st, t, md⟩ := c
    simp only at ht hr
    subst ht
    simp only [Circle.get_bounds, List.map, List.append, Transform.identity_apply,
      pyMin, pyMax, List.foldl, Bounds.mk.injEq, Point.mk.injEq]
    refine ⟨⟨?_, ?_⟩, ?_, ?_⟩ <;> (simp only [min_def, max_def]; split_ifs <;> linarith)

/-- C3 witness: the bounds law at Rectangle(10, 20, 100, 50) and at
Circle(50, 50, 25), both under the identity transform. -/
theorem C3_bounds_witness :
    sampleRect.get_bounds = ⟨⟨10, 20⟩, ⟨10 + 100, 20 + 50⟩⟩ ∧
    sampleCircle.get_bounds = ⟨⟨50 - 25, 50 - 25⟩, ⟨50 + 25, 50 + 25⟩⟩ := by
  constructor
  · exact C3_bounds_under_identity.1 sampleRect rfl (by norm_num [sampleRect])
      (by norm_num [sampleRect])
  · exact C3_bounds_under_identity.2 sampleCircle rfl (by norm_num [sampleCircle])

/-- C4 (amended): Transform.inverse on a singular matrix fails with the plain
ValueError "Transform is not invertible", and constructing a Transform from a
matrix that is not 3x3 fails with the plain ValueError "Transform matrix must
be 3x3".  Neither failure is TransformError-kind: the TransformError class of
the taxonomy is not raised by these operations. -/
theorem C4_transform_failures_are_valueError : ∀ (T : Transform) (rows : List (List ℚ)),
    (T.mat.det = 0 →
      T.inverse = .error (.valueError "Transform is not invertible") ∧
      ∀ e, T.inverse = .error e → e.isTransformErrorKind = false) ∧
    (is3x3 rows = false →
      Transform.ofRows rows = .error (.valueError "Transform matrix must be 3x3") ∧
      ∀ e, Transform.ofRows rows = .error e → e.isTransformErrorKind = false) := by
  intro T rows
  constructor
  · intro hdet
    have h1 : T.inverse = .error (.valueError "Transform is not invertible") := by
      unfold Transform.inverse
      rw [if_pos hdet]
    refine ⟨h1, fun e he => ?_⟩
    rw [h1] at he
    injection he with he
    rw [← he]
    rfl
  · intro h3
    have h1 : Transform.ofRows rows = .error (.valueError "Transform matrix must be 3x3") := by
      unfold Transform.ofRows
      split
      · simp [is3x3] at h3
      · rfl
    refine ⟨h1, fun e he => ?_⟩
    rw [h1] at he
    injection he with he
    rw [← he]
    rfl

/-- C4 counterexample: the claim as stated fails at the singular zero matrix
and at the 1x1 matrix [[1]]: both constructions fail, but with errors that are
not TransformError-kind. -/
theorem C4_transform_error_counterexample :
    Transform.inverse ⟨⟨0, 0, 0, 0, 0, 0, 0, 0, 0⟩⟩
        = .error (.valueError "Transform is not invertible") ∧
    PyError.isTransformErrorKind (.valueError "Transform is not invertible") = false ∧
    Transform.ofRows [[1]] = .error (.valueError "Transform matrix must be 3x3") ∧
    PyError.isTransformErrorKind (.valueError "Transform matrix must be 3x3") = false := by
  refine ⟨?_, rfl, rfl, rfl⟩
  simp only [Transform.inverse, Mat3.det]
  norm_num

/-- C4 witness: the amended error law at the zero matrix and at [[1]]. -/
theorem C4_transform_failures_witness :
    Transform.inverse ⟨⟨0, 0, 0, 0, 0, 0, 0, 0, 0⟩⟩
        = .error (.valueError "Transform is not invertible") ∧
    Transform.ofRows [[1]] = .error (.valueError "Transform matrix must be 3x3") := by
  have h := C4_transform_failures_are_valueError ⟨⟨0, 0, 0, 0, 0, 0, 0, 0, 0⟩⟩ [[1]]
  exact ⟨(h.1 (by norm_num [Mat3.det])).1, (h.2 rfl).1⟩

/-- C5 (amended): for every transform whose matrix has bottom row (0, 0, 1)
(an affine transform) and whose determinant is nonzero, inverse() succeeds and
applying the inverse after the transform returns every point exactly.
(For invertible but non-affine matrices the round trip can fail because
apply_to_point drops the third homogeneous coordinate: see the
counterexample.) -/
theorem C5_inverse_roundtrip_affine (T : Transform) (p : Point)
    (h20 : T.mat.m20 = 0) (h21 : T.mat.m21 = 0) (h22 : T.mat.m22 = 1)
    (hdet : T.mat.det ≠ 0) :
    ∃ Ti, T.inverse = .ok Ti ∧ Ti.applyToPoint (T.applyToPoint p) = p := by
  obtain ⟨⟨a, b, c, d, e, f, g, h, i⟩⟩ := T
  obtain ⟨px, py⟩ := p
  simp only at h20 h21 h22
  subst h20 h21 h22
  refine ⟨_, by unfold Transform.inverse; rw [if_neg hdet], ?_⟩
  have hd : a * e - b * d ≠ 0 := by
    intro hc
    apply hdet
    simp only [Mat3.det]
    ring_nf
    ring_nf at hc
    linarith
  simp only [Transform.applyToPoint, Mat3.inv, Mat3.det, Point.mk.injEq]
  constructor <;> (field_simp; ring)

/-- C5 counterexample: the matrix [[0,0,1],[0,1,0],[1,0,0]] has determinant -1
and is its own inverse, yet inverse-after-transform sends (2, 3) to (1, 3):
the round trip fails for an invertible non-affine transform. -/
theorem C5_inverse_roundtrip_counterexample :
    Transform.inverse ⟨⟨0, 0, 1, 0, 1, 0, 1, 0, 0⟩⟩ = .ok ⟨⟨0, 0, 1, 0, 1, 0, 1, 0, 0⟩⟩ ∧
    Transform.applyToPoint ⟨⟨0, 0, 1, 0, 1, 0, 1, 0, 0⟩⟩
        (Transform.applyToPoint ⟨⟨0, 0, 1, 0, 1, 0, 1, 0, 0⟩⟩ ⟨2, 3⟩) = ⟨1, 3⟩ ∧
    (⟨1, 3⟩ : Point) ≠ ⟨2, 3⟩ := by
  refine ⟨?_, ?_, ?_⟩
  · simp only [Transform.inverse, Mat3.det, Mat3.inv]
    norm_num
  · simp only [Transform.applyToPoint, Point.mk.injEq]
    norm_num
  · simp only [Point.mk.injEq, ne_eq]
    norm_num

/-- C5 witness: the affine round trip at T = translation(3, 4) and
p = (1, 2). -/
theorem C5_inverse_roundtrip_witness :
    ∃ Ti, (Transform.translation 3 4).inverse = .ok Ti ∧
      Ti.applyToPoint ((Transform.translation 3 4).applyToPoint ⟨1, 2⟩) = ⟨1, 2⟩ :=
  C5_inverse_roundtrip_affine (Transform.translation 3 4) ⟨1, 2⟩ rfl rfl rfl
    (by norm_num [Transform.translation, Mat3.det])

/-- C6: apply_transform on a valid rectangle or circle succeeds and returns a
shape of the same variant equal to the original in every field — geometry,
layer_id, group_id, visible, locked, style, metadata and, in particular, id —
except the transform, which becomes old_transform.compose(t).  The embedding
is pure, as the source is copy-on-write: the original value is untouched. -/
theorem C6_apply_transform_preserves_fields :
    (∀ (r : Rectangle) (t : Transform) (fresh : String),
      0 < r.width → 0 < r.height → 0 ≤ r.corner_radius →
      r.corner_radius ≤ min r.width r.height / 2 → r.layer_id ≠ "" → r.id ≠ "" →
      r.apply_transform t fresh = .ok { r with transform := r.transform.compose t }) ∧
    (∀ (c : Circle) (t : Transform) (fresh : String),
      0 < c.radius → c.layer_id ≠ "" → c.id ≠ "" →
      c.apply_transform t fresh = .ok { c with transform := c.transform.compose t }) := by
  constructor
  · intro r t fresh hw hh hcr hmax hl hi
    obtain ⟨x, y, w, h, cr, i, layer, gid, vis, lock, st, tr, md⟩ := r
    simp only at hw hh hcr hmax hl hi
    exact mkRectangle_ok x y w h cr layer i gid vis lock st (tr.compose t) md fresh
      hw hh hcr hmax hl hi
  · intro c t fresh hr hl hi
    obtain ⟨cx, cy, rad, i, layer, gid, vis, lock, st, tr, md⟩ := c
    simp only at hr hl hi
    exact mkCircle_ok cx cy rad layer i gid vis lock st (tr.compose t) md fresh hr hl hi

/-- C6 witness: apply_transform with translation(1, 1) on the concrete
rectangle sampleRect2 and with translation(2, 0) on the concrete circle
sampleCircle2. -/
theorem C6_apply_transform_witness :
    sampleRect2.apply_transform (Transform.translation 1 1) "f"
      = .ok { sampleRect2 with
              transform := sampleRect2.transform.compose (Transform.translation 1 1) } ∧
    sampleCircle2.apply_transform (Transform.translation 2 0) "f"
      = .ok { sampleCircle2 with
              transform := sampleCircle2.transform.compose (Transform.translation 2 0) } := by
  constructor
  · exact C6_apply_transform_preserves_fields.1 sampleRect2 (Transform.translation 1 1) "f"
      (by norm_num [sampleRect2]) (by norm_num [sampleRect2]) (by norm_num [sampleRect2])
      (by norm_num [sampleRect2, min_def]) (by simp [sampleRect2]) (by simp [sampleRect2])
  · exact C6_apply_transform_preserves_fields.2 sampleCircle2 (Transform.translation 2 0) "f"
      (by norm_num [sampleCircle2]) (by simp [sampleCircle2]) (by simp [sampleCircle2])

/-- C7: serializing a valid rectangle or circle with to_dict and reading the
dictionary back with from_dict reproduces the shape exactly: the id and every
field — geometry, layer_id, group_id, visible, locked, style, transform matrix
and metadata — are equal to the original (here, the full records are equal). -/
theorem C7_serialization_roundtrip :
    (∀ (r : Rectangle) (fresh : String),
      0 < r.width → 0 < r.height → 0 ≤ r.corner_radius →
      r.corner_radius ≤ min r.width r.height / 2 → r.layer_id ≠ "" → r.id ≠ "" →
      Rectangle.from_dict r.to_dict fresh = .ok r) ∧
    (∀ (c : Circle) (fresh : String),
      0 < c.radius → c.layer_id ≠ "" → c.id ≠ "" →
      Circle.from_dict c.to_dict fresh = .ok c) := by
  constructor
  · intro r fresh hw hh hcr hmax hl hi
    obtain ⟨x, y, w, h, cr, i, layer, gid, vis, lock, st, t, md⟩ := r
    simp only at hw hh hcr hmax hl hi
    obtain ⟨tm⟩ := t
    simp only [Rectangle.to_dict, Rectangle.from_dict, Mat3.toRows, Transform.ofRows,
      Option.getD, Bind.bind, Except.bind]
    exact mkRectangle_ok x y w h cr layer i gid vis lock st ⟨tm⟩ md fresh hw hh hcr hmax hl hi
  · intro c fresh hr hl hi
    obtain ⟨cx, cy, rad, i, layer, gid, vis, lock, st, t, md⟩ := c
    simp only at hr hl hi
    obtain ⟨tm⟩ := t
    simp only [Circle.to_dict, Circle.from_dict, Mat3.toRows, Transform.ofRows,
      Option.getD, Bind.bind, Except.bind]
    exact mkCircle_ok cx cy rad layer i gid vis lock st ⟨tm⟩ md fresh hr hl hi

/-- C7 witness: the round trip at the concrete shapes sampleRect2 and
sampleCircle2, whose optional fields are all nontrivial. -/
theorem C7_serialization_witness :
    Rectangle.from_dict sampleRect2.to_dict "zz" = .ok sampleRect2 ∧
    Circle.from_dict sampleCircle2.to_dict "zz" = .ok sampleCircle2 := by
  constructor
  · exact C7_serialization_roundtrip.1 sampleRect2 "zz"
      (by norm_num [sampleRect2]) (by norm_num [sampleRect2]) (by norm_num [sampleRect2])
      (by norm_num [sampleRect2, min_def]) (by simp [sampleRect2]) (by simp [sampleRect2])
  · exact C7_serialization_roundtrip.2 sampleCircle2 "zz"
      (by norm_num [sampleCircle2]) (by simp [sampleCircle2]) (by simp [sampleCircle2])

/-- C8 (code bug evidence): exporting a document whose only shape is the
visible circle Circle(cx=50, cy=50, radius=25) emits no SVG element at all:
the exporter dispatch returns an element only for Rectangle and silently skips
every Circle, while the repository test suite
(tests/unit/persistence/test_svg_circle.py) requires one circle element with
cx, cy and r attributes for this very input. -/
theorem C8_visible_circle_not_exported :
    sampleCircle.visible = true ∧
    shapeToSvg (.circ sampleCircle) = none ∧
    exportShapes [.circ sampleCircle] = [] := by
  exact ⟨rfl, rfl, rfl⟩

/-- C9: shape construction fails closed.  Each invalid parameter — rectangle
width, height, negative corner radius, oversized corner radius, empty
layer_id, and circle radius or empty layer_id — makes the constructor return a
ShapeValidationError carrying the shape kind, a message naming the offending
parameter with its value, and the shape id (for the layer_id failure, the id
the shape was assigned); no shape value is produced. -/
theorem C9_construction_fails_closed :
    (∀ (x y w h cr : ℚ) (layer : String) (gid : Option String) (vis lock : Bool)
       (st : Option Style) (t : Option Transform) (md : Option Metadata)
       (sid : Option String) (fresh : String),
      (w ≤ 0 → mkRectangle x y w h cr layer gid vis lock st t md sid fresh
        = .error (.shapeValidation "RECTANGLE"
            ("Width must be positive, got " ++ toString w) sid)) ∧
      (0 < w → h ≤ 0 → mkRectangle x y w h cr layer gid vis lock st t md sid fresh
        = .error (.shapeValidation "RECTANGLE"
            ("Height must be positive, got " ++ toString h) sid)) ∧
      (0 < w → 0 < h → cr < 0 → mkRectangle x y w h cr layer gid vis lock st t md sid fresh
        = .error (.shapeValidation "RECTANGLE"
            ("Corner radius cannot be negative, got " ++ toString cr) sid)) ∧
      (0 < w → 0 < h → 0 ≤ cr → min w h / 2 < cr →
        mkRectangle x y w h cr layer gid vis lock st t md sid fresh
        = .error (.shapeValidation "RECTANGLE"
            ("Corner radius " ++ toString cr ++ " exceeds maximum allowed "
              ++ toString (min w h / 2)) sid)) ∧
      (0 < w → 0 < h → 0 ≤ cr → cr ≤ min w h / 2 → layer = "" →
        mkRectangle x y w h cr layer gid vis lock st t md sid fresh
        = .error (.shapeValidation "RECTANGLE" "layer_id cannot be empty"
            (some (pyOrId sid fresh))))) ∧
    (∀ (cx cy rad : ℚ) (layer : String) (gid : Option String) (vis lock : Bool)
       (st : Option Style) (t : Option Transform) (md : Option Metadata)
       (sid : Option String) (fresh : String),
      (rad ≤ 0 → mkCircle cx cy rad layer gid vis lock st t md sid fresh
        = .error (.shapeValidation "CIRCLE"
            ("Radius must be positive, got " ++ toString rad) sid)) ∧
      (0 < rad → layer = "" → mkCircle cx cy rad layer gid vis lock st t md sid fresh
        = .error (.shapeValidation "CIRCLE" "layer_id cannot be empty"
            (some (pyOrId sid fresh))))) := by
  constructor
  · intro x y w h cr layer gid vis lock st t md sid fresh
    refine ⟨fun hw => ?_, fun hw hh => ?_, fun hw hh hcr => ?_, fun hw hh hcr hmax => ?_,
      fun hw hh hcr hmax hl => ?_⟩
    · simp only [mkRectangle]
      rw [if_pos hw]
    · simp only [mkRectangle]
      rw [if_neg (not_le.mpr hw), if_pos hh]
    · simp only [mkRectangle]
      rw [if_neg (not_le.mpr hw), if_neg (not_le.mpr hh), if_pos hcr]
    · simp only [mkRectangle]
      rw [if_neg (not_le.mpr hw), if_neg (not_le.mpr hh), if_neg (not_lt.mpr hcr),
        if_pos hmax]
    · simp only [mkRectangle]
      rw [if_neg (not_le.mpr hw), if_neg (not_le.mpr hh), if_neg (not_lt.mpr hcr),
        if_neg (not_lt.mpr hmax), if_pos hl]
  · intro cx cy rad layer gid vis lock st t md sid fresh
    refine ⟨fun hr => ?_, fun hr hl => ?_⟩
    · simp only [mkCircle]
      rw [if_pos hr]
    · simp only [mkCircle]
      rw [if_neg (not_le.mpr hr), if_pos hl]

/-- C9 witness: every validation branch at a concrete input: width -3,
height 0, corner radius -1, corner radius 3 against min(4, 2)/2 = 1, an empty
rectangle layer_id, circle radius 0, and an empty circle layer_id. -/
theorem C9_construction_witness :
    mkRectangle 1 2 (-3) 5 0 "L" none true false none none none (some "r9") "f"
      = .error (.shapeValidation "RECTANGLE"
          ("Width must be positive, got " ++ toString (-3 : ℚ)) (some "r9")) ∧
    mkRectangle 1 2 4 0 0 "L" none true false none none none (some "r9") "f"
      = .error (.shapeValidation "RECTANGLE"
          ("Height must be positive, got " ++ toString (0 : ℚ)) (some "r9")) ∧
    mkRectangle 1 2 4 2 (-1) "L" none true false none none none (some "r9") "f"
      = .error (.shapeValidation "RECTANGLE"
          ("Corner radius cannot be negative, got " ++ toString (-1 : ℚ)) (some "r9")) ∧
    mkRectangle 1 2 4 2 3 "L" none true false none none none (some "r9") "f"
      = .error (.shapeValidation "RECTANGLE"
          ("Corner radius " ++ toString (3 : ℚ) ++ " exceeds maximum allowed "
            ++ toString (min (4 : ℚ) 2 / 2)) (some "r9")) ∧
    mkRectangle 1 2 4 2 1 "" none true false none none none (some "r9") "f"
      = .error (.shapeValidation "RECTANGLE" "layer_id cannot be empty"
          (some (pyOrId (some "r9") "f"))) ∧
    mkCircle 1 2 0 "L" none true false none none none (some "c9") "f"
      = .error (.shapeValidation "CIRCLE"
          ("Radius must be positive, got " ++ toString (0 : ℚ)) (some "c9")) ∧
    mkCircle 1 2 5 "" none true false none none none (some "c9") "f"
      = .error (.shapeValidation "CIRCLE" "layer_id cannot be empty"
          (some (pyOrId (some "c9") "f"))) := by
  have hr := C9_construction_fails_closed.1
  have hc := C9_construction_fails_closed.2
  refine ⟨(hr 1 2 (-3) 5 0 "L" none true false none none none (some "r9") "f").1 (by norm_num),
    (hr 1 2 4 0 0 "L" none true false none none none (some "r9") "f").2.1
      (by norm_num) (by norm_num),
    (hr 1 2 4 2 (-1) "L" none true false none none none (some "r9") "f").2.2.1
      (by norm_num) (by norm_num) (by norm_num),
    (hr 1 2 4 2 3 "L" none true false none none none (some "r9") "f").2.2.2.1
      (by norm_num) (by norm_num) (by norm_num) (by norm_num [min_def]),
    (hr 1 2 4 2 1 "" none true false none none none (some "r9") "f").2.2.2.2
      (by norm_num) (by norm_num) (by norm_num) (by norm_num [min_def]) rfl,
    (hc 1 2 0 "L" none true false none none none (some "c9") "f").1 (by norm_num),
    (hc 1 2 5 "" none true false none none none (some "c9") "f").2 (by norm_num) rfl⟩

/-- C10: the bounds of a rectangle do not depend on its corner radius: two
rectangles differing only in corner_radius have identical get_bounds results,
and each equals the bounds of the corresponding non-rounded rectangle with
corner_radius zero (the bounds of the four transformed corners). -/
theorem C10_bounds_ignore_corner_radius : ∀ (r : Rectangle) (c1 c2 : ℚ),
    Rectangle.get_bounds { r with corner_radius := c1 }
        = Rectangle.get_bounds { r with corner_radius := c2 } ∧
    Rectangle.get_bounds { r with corner_radius := c1 }
        = Rectangle.get_bounds { r with corner_radius := 0 } :=
  fun _ _ _ => ⟨rfl, rfl⟩

end CadModel
